import Mathlib

/-!
# Shallow embedding of the clawbot coordinator domain core

This file embeds, in Lean 4, the domain layer of the `clawbot_coordinator`
repository: the `Task`, `Bot` and `Workflow` aggregates
(`domain/models/task.py`, `domain/models/bot.py`, `domain/models/workflow.py`),
the `TaskService` coordinator (`domain/services/task_service.py`), the
`TimeoutWorker` sweep (`workers/timeout_worker.py`), the
`WebSocketConnectionManager` registry (`domain/services/websocket_manager.py`)
and the bot registration path (`domain/services/bot_service.py`), and proves
the behavioural claims of the specification against these definitions.

Modelling conventions:
- `datetime` values become `Int` (seconds); every operation that calls
  `datetime.now(timezone.utc)` in Python takes an explicit `now : Int`.
- `UUID` identities and opaque websocket channel objects become `Nat`.
- JSON-ish `dict[str, Any]` payload/result values become association lists
  of `String × RVal`, with `RVal` covering the string and integer leaves the
  embedded code actually constructs.
- Raised exceptions become `Except` results (the raise in the source always
  happens before any field mutation or save, so the error branch carries the
  state through unchanged).
- Repositories become association lists keyed by identity; `save` replaces
  the entry in place or appends, as a keyed store does.
-/

namespace Clawbot

/-- Leaf values appearing in payload / result dictionaries of the embedded
code: strings and integers are the only leaves the domain layer constructs. -/
inductive RVal where
  | s (v : String)
  | i (v : Int)
deriving Repr, DecidableEq

/-- A Python `dict[str, Any]` as an association list. -/
abbrev RDict := List (String × RVal)

/-- Dictionary key lookup. -/
def lookupR (k : String) (d : RDict) : Option RVal :=
  match d with
  | [] => none
  | (k', v) :: rest => if k' = k then some v else lookupR k rest

/-- `exceptions.InvalidStateTransition`: carries the entity type, the current
state (its string value) and the attempted action. -/
structure Ist where
  entity_type : String
  current_state : String
  attempted_action : String
deriving Repr, DecidableEq

/-- Domain-level errors surfaced by the service layer
(`exceptions.ResourceNotFound` and `exceptions.InvalidStateTransition`). -/
inductive DomainErr where
  | notFound (resource_type : String) (resource_id : String)
  | invalid (e : Ist)
deriving Repr, DecidableEq

/-- `TaskStatus` enum from `domain/models/task.py`. -/
inductive TaskStatus where
  | pending
  | assigned
  | in_progress
  | completed
  | failed
  | cancelled
deriving Repr, DecidableEq

/-- The `.value` string of a `TaskStatus` member. -/
def TaskStatus.value : TaskStatus → String
  | .pending => "pending"
  | .assigned => "assigned"
  | .in_progress => "in_progress"
  | .completed => "completed"
  | .failed => "failed"
  | .cancelled => "cancelled"

/-- The `Task` pydantic model from `domain/models/task.py`. -/
structure Task where
  id : Nat
  workflow_id : Nat
  bot_id : Option Nat := none
  status : TaskStatus := .pending
  payload : RDict
  result : Option RDict := none
  timeout_seconds : Nat := 300
  created_at : Int
  assigned_at : Option Int := none
  started_at : Option Int := none
  completed_at : Option Int := none
  updated_at : Int
deriving Repr, DecidableEq

/-- `Task.assign_to`: pending → assigned, else raises. -/
def Task.assign_to (t : Task) (bot_id : Nat) (now : Int) : Except Ist Task :=
  if t.status ≠ .pending then
    .error ⟨"Task", t.status.value, "assign_to"⟩
  else
    .ok { t with
      status := .assigned
      bot_id := some bot_id
      assigned_at := some now
      updated_at := now }

/-- `Task.start`: assigned → in_progress, else raises. -/
def Task.start (t : Task) (now : Int) : Except Ist Task :=
  if t.status ≠ .assigned then
    .error ⟨"Task", t.status.value, "start"⟩
  else
    .ok { t with
      status := .in_progress
      started_at := some now
      updated_at := now }

/-- `Task.complete`: in_progress → completed, else raises. -/
def Task.complete (t : Task) (result : RDict) (now : Int) : Except Ist Task :=
  if t.status ≠ .in_progress then
    .error ⟨"Task", t.status.value, "complete"⟩
  else
    .ok { t with
      status := .completed
      result := some result
      completed_at := some now
      updated_at := now }

/-- `Task.fail`: in_progress → failed, else raises. -/
def Task.fail (t : Task) (error : RDict) (now : Int) : Except Ist Task :=
  if t.status ≠ .in_progress then
    .error ⟨"Task", t.status.value, "fail"⟩
  else
    .ok { t with
      status := .failed
      result := some error
      completed_at := some now
      updated_at := now }

/-- `Task.cancel`: allowed from any state; note the source sets
`completed_at` unconditionally (unlike `Workflow.cancel`). -/
def Task.cancel (t : Task) (now : Int) : Task :=
  { t with
    status := .cancelled
    completed_at := some now
    updated_at := now }

/-- `Task.is_timed_out`: in_progress, started, and strictly past timeout. -/
def Task.is_timed_out (t : Task) (now : Int) : Bool :=
  if t.status ≠ .in_progress then false
  else
    match t.started_at with
    | none => false
    | some s => decide ((now - s) > (t.timeout_seconds : Int))

/-- `Task.is_terminal`: completed, failed or cancelled. -/
def Task.is_terminal (t : Task) : Bool :=
  t.status = .completed ∨ t.status = .failed ∨ t.status = .cancelled

/-- `BotStatus` enum from `domain/models/bot.py`. -/
inductive BotStatus where
  | offline
  | online
  | busy
deriving Repr, DecidableEq

/-- The `.value` string of a `BotStatus` member. -/
def BotStatus.value : BotStatus → String
  | .offline => "offline"
  | .online => "online"
  | .busy => "busy"

/-- The `Bot` pydantic model from `domain/models/bot.py`. -/
structure Bot where
  id : Nat
  name : String
  capabilities : List String
  status : BotStatus := .offline
  last_seen : Option Int := none
  metadata : RDict := []
  created_at : Int
  updated_at : Int
deriving Repr, DecidableEq

/-- `Bot.go_online`: valid from any state; sets last_seen. -/
def Bot.go_online (b : Bot) (now : Int) : Bot :=
  { b with status := .online, last_seen := some now, updated_at := now }

/-- `Bot.go_busy`: valid only from online, else raises. -/
def Bot.go_busy (b : Bot) (now : Int) : Except Ist Bot :=
  if b.status ≠ .online then
    .error ⟨"Bot", b.status.value, "go_busy"⟩
  else
    .ok { b with status := .busy, updated_at := now }

/-- `Bot.go_offline`: valid from any state; no liveness update. -/
def Bot.go_offline (b : Bot) (now : Int) : Bot :=
  { b with status := .offline, updated_at := now }

/-- `Bot.heartbeat`: promotes offline to online, always refreshes last_seen
and updated_at; leaves busy (and online) status alone. -/
def Bot.heartbeat (b : Bot) (now : Int) : Bot :=
  { b with
    status := if b.status = .offline then .online else b.status
    last_seen := some now
    updated_at := now }

/-- Characters Python's `str.strip()` removes: the code points for which
CPython's `Py_UNICODE_ISSPACE` holds — ASCII whitespace, the information
separators 1C–1F, NEL (85), NBSP (A0), and the Unicode space separators
(OGHAM 1680, EN QUAD 2000 through HAIR SPACE 200A, LINE/PARAGRAPH
SEPARATOR 2028/2029, NARROW NBSP 202F, MMSP 205F, IDEOGRAPHIC SPACE
3000). -/
def isPyWs (c : Char) : Bool :=
  c.toNat ∈ [0x09, 0x0a, 0x0b, 0x0c, 0x0d, 0x1c, 0x1d, 0x1e, 0x1f, 0x20,
    0x85, 0xa0, 0x1680, 0x2000, 0x2001, 0x2002, 0x2003, 0x2004, 0x2005,
    0x2006, 0x2007, 0x2008, 0x2009, 0x200a, 0x2028, 0x2029, 0x202f,
    0x205f, 0x3000]

/-- Python `str.strip()`: drop leading and trailing whitespace. -/
def pyStrip (s : String) : String :=
  ⟨((s.data.dropWhile isPyWs).reverse.dropWhile isPyWs).reverse⟩

/-- Errors raised while constructing a pydantic model: a `Field` constraint
violation (pydantic's own error) or a domain `ValidationError(field, reason)`
raised by a `field_validator`. -/
inductive ConstructErr where
  | fieldConstraint (field : String)
  | validation (field : String) (reason : String)
deriving Repr, DecidableEq

/-- The `name` field of `Bot`: the `Field(min_length=1, max_length=255)`
constraint, then `validate_name` (`if not v or not v.strip(): raise
ValidationError("name", "Bot name cannot be empty")`). -/
def validateBotName (v : String) : Except ConstructErr String :=
  if v.length < 1 ∨ v.length > 255 then .error (.fieldConstraint "name")
  else if v = "" ∨ pyStrip v = "" then
    .error (.validation "name" "Bot name cannot be empty")
  else .ok v

/-- The `capabilities` field of `Bot`: the `Field(min_length=1)` constraint,
then `validate_capabilities`. -/
def validateBotCapabilities (v : List String) : Except ConstructErr (List String) :=
  if v.length < 1 then .error (.fieldConstraint "capabilities")
  else if v = [] ∨ v.length = 0 then
    .error (.validation "capabilities" "Bot must have at least one capability")
  else .ok v

/-- Constructing `Bot(name=..., capabilities=..., metadata=...)`: pydantic
validates fields in declaration order (name before capabilities); defaults
fill the remaining fields. -/
def mkBot (id : Nat) (name : String) (capabilities : List String)
    (metadata : RDict) (now : Int) : Except ConstructErr Bot := do
  let n ← validateBotName name
  let caps ← validateBotCapabilities capabilities
  .ok { id := id
        name := n
        capabilities := caps
        metadata := metadata
        created_at := now
        updated_at := now }

/-- `WorkflowStatus` enum from `domain/models/workflow.py`. -/
inductive WorkflowStatus where
  | pending
  | in_progress
  | completed
  | failed
  | cancelled
deriving Repr, DecidableEq

/-- The `Workflow` pydantic model (the fields the embedded operations touch). -/
structure Workflow where
  id : Nat
  name : String
  description : String := ""
  status : WorkflowStatus := .pending
  task_ids : List Nat := []
  metadata : RDict := []
  created_at : Int
  started_at : Option Int := none
  completed_at : Option Int := none
  updated_at : Int
deriving Repr, DecidableEq

/-- `Workflow.cancel`: allowed from any state; sets `completed_at` only when
it is not already set (`if not self.completed_at`). -/
def Workflow.cancel (w : Workflow) (now : Int) : Workflow :=
  { w with
    status := .cancelled
    completed_at := if w.completed_at = none then some now else w.completed_at
    updated_at := now }

/-! ## Repositories as keyed association stores -/

/-- `repo.get(id)`: first entry with the given key. -/
def getAL {α : Type} (l : List (Nat × α)) (k : Nat) : Option α :=
  match l with
  | [] => none
  | (k', v) :: rest => if k' = k then some v else getAL rest k

/-- `repo.save(x)`: replace the entry for the key in place, or append. -/
def saveAL {α : Type} (l : List (Nat × α)) (k : Nat) (v : α) : List (Nat × α) :=
  match l with
  | [] => [(k, v)]
  | (k', v') :: rest =>
    if k' = k then (k, v) :: rest else (k', v') :: saveAL rest k v

abbrev TaskStore := List (Nat × Task)
abbrev BotStore := List (Nat × Bot)

/-- The bot-release step shared by `complete_task` / `fail_task` /
`cancel_task` / the timeout paths: if the task carried a `bot_id`, the bot
still exists and is busy, transition it to online and save it; otherwise do
nothing. -/
def releaseBot (bs : BotStore) (bot_id : Option Nat) (now : Int) : BotStore :=
  match bot_id with
  | none => bs
  | some b =>
    match getAL bs b with
    | none => bs
    | some bot =>
      if bot.status = .busy then saveAL bs b (bot.go_online now) else bs

/-! ## TaskService (`domain/services/task_service.py`)

Each operation threads the two stores explicitly; a raised exception leaves
both stores exactly as they were, because in the source every raise happens
before any `save`. -/

/-- Outcome of a `TaskService` call: either a raised domain error, or no
error; in both cases the resulting task and bot stores. -/
structure SvcOutcome where
  err : Option DomainErr
  tasks : TaskStore
  bots : BotStore
deriving Repr, DecidableEq

/-- `TaskService.assign_task_to_bot`: load task and bot (404 on either
missing), `task.assign_to(bot_id)`, save the task. The bot store is never
written. -/
def assignTaskToBot (ts : TaskStore) (bs : BotStore) (task_id bot_id : Nat)
    (now : Int) : SvcOutcome :=
  match getAL ts task_id with
  | none => ⟨some (.notFound "Task" (toString task_id)), ts, bs⟩
  | some task =>
    match getAL bs bot_id with
    | none => ⟨some (.notFound "Bot" (toString bot_id)), ts, bs⟩
    | some _ =>
      match task.assign_to bot_id now with
      | .error e => ⟨some (.invalid e), ts, bs⟩
      | .ok task' => ⟨none, saveAL ts task_id task', bs⟩

/-- `TaskService.start_task`: load task, `task.start()`, save. -/
def startTask (ts : TaskStore) (bs : BotStore) (task_id : Nat)
    (now : Int) : SvcOutcome :=
  match getAL ts task_id with
  | none => ⟨some (.notFound "Task" (toString task_id)), ts, bs⟩
  | some task =>
    match task.start now with
    | .error e => ⟨some (.invalid e), ts, bs⟩
    | .ok task' => ⟨none, saveAL ts task_id task', bs⟩

/-- `TaskService.complete_task`: load task, `task.complete(result)`, save the
task, then free the assigned bot if it exists and is busy. -/
def completeTask (ts : TaskStore) (bs : BotStore) (task_id : Nat)
    (result : RDict) (now : Int) : SvcOutcome :=
  match getAL ts task_id with
  | none => ⟨some (.notFound "Task" (toString task_id)), ts, bs⟩
  | some task =>
    match task.complete result now with
    | .error e => ⟨some (.invalid e), ts, bs⟩
    | .ok task' =>
      ⟨none, saveAL ts task_id task', releaseBot bs task'.bot_id now⟩

/-- `TaskService.fail_task`: load task, `task.fail(error)`, save the task,
then free the assigned bot if it exists and is busy. -/
def failTask (ts : TaskStore) (bs : BotStore) (task_id : Nat)
    (error : RDict) (now : Int) : SvcOutcome :=
  match getAL ts task_id with
  | none => ⟨some (.notFound "Task" (toString task_id)), ts, bs⟩
  | some task =>
    match task.fail error now with
    | .error e => ⟨some (.invalid e), ts, bs⟩
    | .ok task' =>
      ⟨none, saveAL ts task_id task', releaseBot bs task'.bot_id now⟩

/-- `TaskService.cancel_task`: load task, `task.cancel()` (never raises),
save the task, then free the assigned bot if it exists and is busy. -/
def cancelTask (ts : TaskStore) (bs : BotStore) (task_id : Nat)
    (now : Int) : SvcOutcome :=
  match getAL ts task_id with
  | none => ⟨some (.notFound "Task" (toString task_id)), ts, bs⟩
  | some task =>
    let task' := task.cancel now
    ⟨none, saveAL ts task_id task', releaseBot bs task'.bot_id now⟩

/-- The error dictionary `handle_timed_out_tasks` builds for a failed task:
`{"error": "Task exceeded timeout", "timeout_seconds": n}` — no "reason"
key. -/
def handleTimeoutError (n : Nat) : RDict :=
  [("error", .s "Task exceeded timeout"), ("timeout_seconds", .i (n : Int))]

/-- The accumulator of a sweep loop: tasks failed so far and the two
evolving stores. -/
structure SweepState where
  count : Nat
  tasks : TaskStore
  bots : BotStore
deriving Repr, DecidableEq

/-- One iteration of the `TaskService.handle_timed_out_tasks` loop: fail the
candidate snapshot itself (no re-fetch) when `is_timed_out()`; a raise from
`task.fail` propagates (no per-task try/except in the source). -/
def handleStep (now : Int) (st : SweepState) (t : Task) :
    Except Ist SweepState :=
  if t.is_timed_out now then
    match t.fail (handleTimeoutError t.timeout_seconds) now with
    | .error e => .error e
    | .ok t' =>
      .ok ⟨st.count + 1, saveAL st.tasks t.id t', releaseBot st.bots t'.bot_id now⟩
  else
    .ok st

/-- The loop of `handle_timed_out_tasks` over the candidate list. -/
def handleLoop (now : Int) (st : SweepState) :
    List Task → Except Ist SweepState
  | [] => .ok st
  | t :: rest =>
    match handleStep now st t with
    | .error e => .error e
    | .ok st' => handleLoop now st' rest

/-- `TaskService.handle_timed_out_tasks`: iterate over the candidates
returned by `get_timeout_candidates`, failing each timed-out snapshot; the
count of failed tasks is returned. -/
def handleTimedOutTasks (cands : List Task) (ts : TaskStore) (bs : BotStore)
    (now : Int) : Except Ist SweepState :=
  handleLoop now ⟨0, ts, bs⟩ cands

/-! ## TimeoutWorker (`workers/timeout_worker.py`)

`process_timeouts` lists candidate tasks, and for each candidate that its
snapshot reports timed out, re-fetches the current state of that task by
identity from the (possibly since-updated) task store, skips absent or
terminal states, and fails the re-fetched task inside a per-task
try/except that swallows errors and continues. The candidate list is the
earlier `get_all()` result; the store argument models the state at
re-fetch time, which interleaved writers may have advanced. -/

/-- The error dictionary `process_timeouts` builds for a timed-out task. -/
def workerTimeoutError (n : Nat) : RDict :=
  [("reason", .s "timeout"),
   ("message", .s ("Task exceeded timeout of " ++ toString n ++ " seconds")),
   ("timeout_seconds", .i (n : Int))]

/-- One iteration of the `process_timeouts` loop over a candidate `t`. -/
def sweepStep (now : Int) (st : SweepState) (t : Task) : SweepState :=
  if t.is_timed_out now then
    match getAL st.tasks t.id with
    | none => st
    | some cur =>
      if cur.is_terminal then st
      else
        match cur.fail (workerTimeoutError cur.timeout_seconds) now with
        | .error _ => st
        | .ok cur' =>
          ⟨st.count + 1, saveAL st.tasks cur.id cur', releaseBot st.bots cur'.bot_id now⟩
  else
    st

/-- `TimeoutWorker.process_timeouts`: fold the per-candidate step over the
candidate list, starting from a zero count and the current stores. -/
def processTimeouts (cands : List Task) (ts : TaskStore) (bs : BotStore)
    (now : Int) : SweepState :=
  cands.foldl (sweepStep now) ⟨0, ts, bs⟩

/-! ## WebSocketConnectionManager (`domain/services/websocket_manager.py`)

The two internal dicts (`_connections : bot_id → websocket` and
`_connection_info : bot_id → ConnectionInfo`) become association lists;
Python dict assignment replaces in place or appends, `pop(k, None)` removes
the entry when present. Websocket objects are opaque and become `Nat`. -/

/-- `ConnectionInfo`: bot id plus connection timestamp. -/
structure ConnectionInfo where
  bot_id : Nat
  connected_at : Int
deriving Repr, DecidableEq

/-- The connection manager's state. -/
structure ConnManager where
  connections : List (Nat × Nat)
  connection_info : List (Nat × ConnectionInfo)
deriving Repr, DecidableEq

/-- `WebSocketConnectionManager()`: empty dicts. -/
def ConnManager.empty : ConnManager := ⟨[], []⟩

/-- Python `d.pop(k, None)`: drop the entry for `k` if present. -/
def popAL {α : Type} (l : List (Nat × α)) (k : Nat) : List (Nat × α) :=
  match l with
  | [] => []
  | (k', v) :: rest => if k' = k then rest else (k', v) :: popAL rest k

/-- `connect(bot_id, websocket)`: register or replace both entries. -/
def ConnManager.connect (m : ConnManager) (bot_id ws : Nat) (now : Int) :
    ConnManager :=
  ⟨saveAL m.connections bot_id ws,
   saveAL m.connection_info bot_id ⟨bot_id, now⟩⟩

/-- `disconnect(bot_id)`: remove both entries; safe when absent. -/
def ConnManager.disconnect (m : ConnManager) (bot_id : Nat) : ConnManager :=
  ⟨popAL m.connections bot_id, popAL m.connection_info bot_id⟩

/-- `is_connected(bot_id)`. -/
def ConnManager.is_connected (m : ConnManager) (bot_id : Nat) : Bool :=
  (getAL m.connections bot_id).isSome

/-- `get_connection(bot_id)`. -/
def ConnManager.get_connection (m : ConnManager) (bot_id : Nat) : Option Nat :=
  getAL m.connections bot_id

/-- `get_connection_count()`: `len(self._connections)`. -/
def ConnManager.get_connection_count (m : ConnManager) : Nat :=
  m.connections.length

/-- An abstract connect/disconnect event against the registry. -/
inductive ConnOp where
  | connect (bot_id ws : Nat) (now : Int)
  | disconnect (bot_id : Nat)
deriving Repr, DecidableEq

/-- Apply one event to the registry. -/
def ConnManager.apply (m : ConnManager) : ConnOp → ConnManager
  | .connect b ws now => m.connect b ws now
  | .disconnect b => m.disconnect b

/-- Run a sequence of connect/disconnect events from the fresh registry. -/
def runConnOps (ops : List ConnOp) : ConnManager :=
  ops.foldl ConnManager.apply ConnManager.empty

/-- `BotService.register_bot`: construct the `Bot` (validation may raise),
then save it. -/
def registerBot (bs : BotStore) (id : Nat) (name : String)
    (capabilities : List String) (metadata : RDict) (now : Int) :
    Except ConstructErr (Bot × BotStore) :=
  match mkBot id name capabilities metadata now with
  | .error e => .error e
  | .ok b => .ok (b, saveAL bs b.id b)

/-- The failed form `handle_timed_out_tasks` saves for a timed-out candidate
snapshot `t`. -/
def failSnapshot (t : Task) (now : Int) : Task :=
  { t with
    status := .failed
    result := some (handleTimeoutError t.timeout_seconds)
    completed_at := some now
    updated_at := now }

/-- The total (never-raising) unfolding of the `handle_timed_out_tasks`
loop, used to characterise `handleTimedOutTasks`. -/
def handleTotal (now : Int) (st : SweepState) : List Task → SweepState
  | [] => st
  | t :: rest =>
    handleTotal now
      (if t.is_timed_out now then
        ⟨st.count + 1, saveAL st.tasks t.id (failSnapshot t now),
         releaseBot st.bots t.bot_id now⟩
      else st) rest

/-! ## Concrete fixtures for witnesses and counterexamples -/

/-- A freshly created pending task. -/
def tPending : Task :=
  { id := 1, workflow_id := 10, payload := [("kind", RVal.s "build")],
    created_at := 0, updated_at := 0 }

/-- `tPending` after `assign_to(7)` at time 5. -/
def tAssigned : Task :=
  { tPending with
    status := .assigned
    bot_id := some 7
    assigned_at := some 5
    updated_at := 5 }

/-- `tAssigned` after `start()` at time 10. -/
def tInProgress : Task :=
  { tAssigned with
    status := .in_progress
    started_at := some 10
    updated_at := 10 }

/-- `tInProgress` after `complete({...})` at time 100. -/
def tCompleted : Task :=
  { tInProgress with
    status := .completed
    result := some [("ok", RVal.s "true")]
    completed_at := some 100
    updated_at := 100 }

/-- A busy bot holding task 1. -/
def botBusy : Bot :=
  { id := 7, name := "w1", capabilities := ["build"], status := .busy,
    last_seen := some 5, created_at := 0, updated_at := 5 }

/-- An offline bot. -/
def botOffline : Bot :=
  { id := 8, name := "w2", capabilities := ["test"], created_at := 0,
    updated_at := 0 }

/-! ## Store lemmas -/

theorem getAL_saveAL_self {α : Type} (l : List (Nat × α)) (k : Nat) (v : α) :
    getAL (saveAL l k v) k = some v := by
  induction l with
  | nil => simp [saveAL, getAL]
  | cons hd tl ih =>
    obtain ⟨k', v'⟩ := hd
    by_cases h : k' = k
    · simp [saveAL, h, getAL]
    · simp [saveAL, h, getAL, ih]

/-! ## C1 — Task state machine -/

/-- C1: `assign_to` is permitted only from pending, `start` only from
assigned, `complete` and `fail` only from in_progress; in any other state
each raises `InvalidStateTransition("Task", current_state, action)`. In this
embedding each operation returns `Except`, and the error branch is taken
before any field is built, so the erroring call leaves the task unchanged by
construction. -/
theorem task_state_machine (t : Task) (b : Nat) (r : RDict) (now : Int) :
    (t.status = .pending →
      t.assign_to b now = .ok { t with
        status := .assigned
        bot_id := some b
        assigned_at := some now
        updated_at := now }) ∧
    (t.status ≠ .pending →
      t.assign_to b now = .error ⟨"Task", t.status.value, "assign_to"⟩) ∧
    (t.status = .assigned →
      t.start now = .ok { t with
        status := .in_progress
        started_at := some now
        updated_at := now }) ∧
    (t.status ≠ .assigned →
      t.start now = .error ⟨"Task", t.status.value, "start"⟩) ∧
    (t.status = .in_progress →
      t.complete r now = .ok { t with
        status := .completed
        result := some r
        completed_at := some now
        updated_at := now }) ∧
    (t.status ≠ .in_progress →
      t.complete r now = .error ⟨"Task", t.status.value, "complete"⟩) ∧
    (t.status = .in_progress →
      t.fail r now = .ok { t with
        status := .failed
        result := some r
        completed_at := some now
        updated_at := now }) ∧
    (t.status ≠ .in_progress →
      t.fail r now = .error ⟨"Task", t.status.value, "fail"⟩) := by
  refine ⟨?_, ?_, ?_, ?_, ?_, ?_, ?_, ?_⟩ <;> intro h <;>
    simp [Task.assign_to, Task.start, Task.complete, Task.fail, h]

/-- C1 witness: the concrete lifecycle `pending → assigned → in_progress →
completed`, plus two rejected transitions with their error payloads. -/
theorem task_state_machine_witness :
    tPending.assign_to 7 5 = .ok tAssigned ∧
    tAssigned.assign_to 7 5 = .error ⟨"Task", "assigned", "assign_to"⟩ ∧
    tAssigned.start 10 = .ok tInProgress ∧
    tInProgress.complete [("ok", RVal.s "true")] 100 = .ok tCompleted ∧
    tCompleted.fail [] 101 = .error ⟨"Task", "completed", "fail"⟩ := by
  refine ⟨?_, ?_, ?_, ?_, ?_⟩
  · exact (task_state_machine tPending 7 [] 5).1 rfl
  · exact (task_state_machine tAssigned 7 [] 5).2.1 (by decide)
  · exact (task_state_machine tAssigned 7 [] 10).2.2.1 rfl
  · exact (task_state_machine tInProgress 7 [("ok", RVal.s "true")] 100).2.2.2.2.1 rfl
  · exact (task_state_machine tCompleted 7 [] 101).2.2.2.2.2.2.2 (by decide)

/-! ## C4 — is_timed_out -/

/-- C4: `is_timed_out()` is true iff the task is in_progress with
`started_at` set and `now - started_at` strictly greater than
`timeout_seconds`; in particular it is false in any other status, false at
exactly the timeout, and true one second beyond it. -/
theorem is_timed_out_spec (t : Task) (now : Int) :
    (t.is_timed_out now = true ↔
      t.status = .in_progress ∧
        ∃ s, t.started_at = some s ∧ (t.timeout_seconds : Int) < now - s) ∧
    (t.status ≠ .in_progress → t.is_timed_out now = false) ∧
    (∀ s, t.started_at = some s → now - s = (t.timeout_seconds : Int) →
      t.is_timed_out now = false) ∧
    (∀ s, t.started_at = some s → t.status = .in_progress →
      now - s = (t.timeout_seconds : Int) + 1 → t.is_timed_out now = true) := by
  refine ⟨?_, ?_, ?_, ?_⟩
  · by_cases h : t.status = .in_progress
    · cases hs : t.started_at with
      | none => simp [Task.is_timed_out, h, hs]
      | some s => simp [Task.is_timed_out, h, hs]
    · simp [Task.is_timed_out, h]
  · intro h
    simp [Task.is_timed_out, h]
  · intro s hs hnow
    by_cases h : t.status = .in_progress
    · simp [Task.is_timed_out, h, hs, hnow]
    · simp [Task.is_timed_out, h]
  · intro s hs h hnow
    simp [Task.is_timed_out, h, hs, hnow]

/-- C4 witness: the concrete in-progress task (started at 10, timeout 300)
is not timed out at `now = 310` (elapsed exactly 300) and is timed out at
`now = 311`; a completed task with an old `started_at` is never timed out. -/
theorem is_timed_out_spec_witness :
    tInProgress.is_timed_out 310 = false ∧
    tInProgress.is_timed_out 311 = true ∧
    tCompleted.is_timed_out 100000 = false := by
  refine ⟨?_, ?_, ?_⟩
  · exact (is_timed_out_spec tInProgress 310).2.2.1 10 rfl (by decide)
  · exact (is_timed_out_spec tInProgress 311).2.2.2 10 rfl rfl (by decide)
  · exact (is_timed_out_spec tCompleted 100000).2.1 (by decide)

/-! ## C6 — Task.cancel and completed_at -/

/-- C6 counterexample: cancelling a task that already carries
`completed_at = 100` at time 200 overwrites the timestamp with 200, so the
claim that an existing `completed_at` is left unchanged is false on
`Task.cancel` (the guard exists only in `Workflow.cancel`). -/
theorem task_cancel_overwrite_counterexample :
    tCompleted.completed_at = some 100 ∧
    (tCompleted.cancel 200).completed_at = some 200 ∧
    (some 200 : Option Int) ≠ some 100 := by
  refine ⟨rfl, rfl, by decide⟩

/-- C6 (amended): `Task.cancel` succeeds from any state, including terminal
states, sets status to cancelled, and unconditionally sets `completed_at`
(and `updated_at`) to the current time, overwriting any prior value. -/
theorem task_cancel_spec (t : Task) (now : Int) :
    t.cancel now = { t with
      status := .cancelled
      completed_at := some now
      updated_at := now } := rfl

/-- For contrast with `Task.cancel`: `Workflow.cancel` does guard the
timestamp, preserving an already-set `completed_at`. -/
theorem workflow_cancel_preserves_completed_at (w : Workflow) (now t0 : Int)
    (h : w.completed_at = some t0) : (w.cancel now).completed_at = some t0 := by
  simp [Workflow.cancel, h]

/-! ## C8 — Bot.heartbeat -/

/-- C8: `heartbeat()` sets `last_seen` (and `updated_at`) to now, promotes
an offline bot to online, leaves a busy or online bot's status unchanged,
and changes no other field (the record-update equation fixes every other
field to its old value). -/
theorem heartbeat_spec (b : Bot) (now : Int) :
    b.heartbeat now = { b with
      status := if b.status = .offline then .online else b.status
      last_seen := some now
      updated_at := now } ∧
    (b.status = .offline → (b.heartbeat now).status = .online) ∧
    (b.status = .busy → (b.heartbeat now).status = .busy) ∧
    (b.status = .online → (b.heartbeat now).status = .online) := by
  refine ⟨rfl, ?_, ?_, ?_⟩ <;> intro h <;> simp [Bot.heartbeat, h]

/-- C8 witness: heartbeat promotes the concrete offline bot to online and
keeps the busy bot busy, refreshing `last_seen` in both cases. -/
theorem heartbeat_spec_witness :
    (botOffline.heartbeat 50).status = .online ∧
    (botBusy.heartbeat 50).status = .busy ∧
    (botBusy.heartbeat 50).last_seen = some 50 := by
  refine ⟨(heartbeat_spec botOffline 50).2.1 rfl,
    (heartbeat_spec botBusy 50).2.2.1 rfl, ?_⟩
  rw [(heartbeat_spec botBusy 50).1]

/-! ## C5 — assign through the coordinator -/

/-- C5: `assign_task_to_bot` raises `ResourceNotFound` when the task or the
bot is absent (leaving both stores untouched); for a pending task and an
existing bot it saves the assigned task and returns the bot store exactly
as it was — every bot record, status included, is unchanged. -/
theorem assign_task_spec (ts : TaskStore) (bs : BotStore) (tid bid : Nat)
    (now : Int) :
    (getAL ts tid = none →
      assignTaskToBot ts bs tid bid now =
        ⟨some (.notFound "Task" (toString tid)), ts, bs⟩) ∧
    (∀ t, getAL ts tid = some t → getAL bs bid = none →
      assignTaskToBot ts bs tid bid now =
        ⟨some (.notFound "Bot" (toString bid)), ts, bs⟩) ∧
    (∀ t bot, getAL ts tid = some t → getAL bs bid = some bot →
      t.status = .pending →
      assignTaskToBot ts bs tid bid now =
        ⟨none,
         saveAL ts tid { t with
           status := .assigned
           bot_id := some bid
           assigned_at := some now
           updated_at := now },
         bs⟩) := by
  refine ⟨?_, ?_, ?_⟩
  · intro h
    simp [assignTaskToBot, h]
  · intro t ht hb
    simp [assignTaskToBot, ht, hb]
  · intro t bot ht hb hp
    simp [assignTaskToBot, ht, hb, Task.assign_to, hp]

/-- C5 witness: assigning the concrete pending task to the busy bot's id
succeeds, saves the assigned task and leaves the bot store untouched;
assigning a missing task id raises `ResourceNotFound("Task", ...)`. -/
theorem assign_task_spec_witness :
    assignTaskToBot [(1, tPending)] [(7, botBusy)] 1 7 5 =
      ⟨none, [(1, tAssigned)], [(7, botBusy)]⟩ ∧
    assignTaskToBot [(1, tPending)] [(7, botBusy)] 2 7 5 =
      ⟨some (.notFound "Task" "2"), [(1, tPending)], [(7, botBusy)]⟩ := by
  constructor
  · exact (assign_task_spec [(1, tPending)] [(7, botBusy)] 1 7 5).2.2
      tPending botBusy rfl rfl rfl
  · exact (assign_task_spec [(1, tPending)] [(7, botBusy)] 2 7 5).1 rfl

/-! ## C3 — bot release on terminal transitions, exactly once -/

/-- C3: for an in-progress task whose bot is present and busy, `complete` /
`fail` / `cancel` through the service each save the terminal task and save
the released (online) bot exactly once; if the bot is absent the release is
silently skipped and the bot store is untouched; a second `complete` or
`fail` on the now-terminal task raises `InvalidStateTransition` and returns
both stores unchanged (the raise happens before any save). -/
theorem terminal_release_spec (ts : TaskStore) (bs : BotStore) (tid b : Nat)
    (r e : RDict) (now later : Int) (t : Task)
    (hT : getAL ts tid = some t) (hS : t.status = .in_progress)
    (hB : t.bot_id = some b) :
    (∀ bot, getAL bs b = some bot → bot.status = .busy →
      completeTask ts bs tid r now =
        ⟨none,
         saveAL ts tid { t with
           status := .completed
           result := some r
           completed_at := some now
           updated_at := now },
         saveAL bs b (bot.go_online now)⟩ ∧
      failTask ts bs tid e now =
        ⟨none,
         saveAL ts tid { t with
           status := .failed
           result := some e
           completed_at := some now
           updated_at := now },
         saveAL bs b (bot.go_online now)⟩ ∧
      cancelTask ts bs tid now =
        ⟨none,
         saveAL ts tid { t with
           status := .cancelled
           completed_at := some now
           updated_at := now },
         saveAL bs b (bot.go_online now)⟩) ∧
    (getAL bs b = none →
      completeTask ts bs tid r now =
        ⟨none,
         saveAL ts tid { t with
           status := .completed
           result := some r
           completed_at := some now
           updated_at := now },
         bs⟩) ∧
    (∀ bs2,
      completeTask
        (saveAL ts tid { t with
          status := .completed
          result := some r
          completed_at := some now
          updated_at := now }) bs2 tid r later =
        ⟨some (.invalid ⟨"Task", "completed", "complete"⟩),
         saveAL ts tid { t with
           status := .completed
           result := some r
           completed_at := some now
           updated_at := now },
         bs2⟩ ∧
      failTask
        (saveAL ts tid { t with
          status := .completed
          result := some r
          completed_at := some now
          updated_at := now }) bs2 tid e later =
        ⟨some (.invalid ⟨"Task", "completed", "fail"⟩),
         saveAL ts tid { t with
           status := .completed
           result := some r
           completed_at := some now
           updated_at := now },
         bs2⟩) := by
  refine ⟨?_, ?_, ?_⟩
  · intro bot hbot hbusy
    refine ⟨?_, ?_, ?_⟩
    · simp [completeTask, hT, Task.complete, hS, releaseBot, hB, hbot, hbusy]
    · simp [failTask, hT, Task.fail, hS, releaseBot, hB, hbot, hbusy]
    · simp [cancelTask, hT, Task.cancel, releaseBot, hB, hbot, hbusy]
  · intro hnone
    simp [completeTask, hT, Task.complete, hS, releaseBot, hB, hnone]
  · intro bs2
    constructor
    · simp [completeTask, getAL_saveAL_self, Task.complete, TaskStatus.value]
    · simp [failTask, getAL_saveAL_self, Task.fail, TaskStatus.value]

/-- C3 witness: completing the concrete in-progress task (bot 7 busy)
releases bot 7 to online once; completing again on the now-completed task
raises and leaves both stores as they were. -/
theorem terminal_release_spec_witness :
    completeTask [(1, tInProgress)] [(7, botBusy)] 1 [("ok", RVal.s "true")] 100 =
      ⟨none, [(1, tCompleted)], [(7, botBusy.go_online 100)]⟩ ∧
    completeTask [(1, tCompleted)] [(7, botBusy.go_online 100)] 1
        [("ok", RVal.s "true")] 200 =
      ⟨some (.invalid ⟨"Task", "completed", "complete"⟩),
       [(1, tCompleted)], [(7, botBusy.go_online 100)]⟩ := by
  have h := terminal_release_spec [(1, tInProgress)] [(7, botBusy)] 1 7
    [("ok", RVal.s "true")] [] 100 200 tInProgress rfl rfl rfl
  constructor
  · exact (h.1 botBusy rfl rfl).1
  · exact (h.2.2 [(7, botBusy.go_online 100)]).1

/-! ## C7 — connection registry: one channel per bot -/

theorem getAL_eq_none_iff {α : Type} (l : List (Nat × α)) (k : Nat) :
    getAL l k = none ↔ k ∉ l.map Prod.fst := by
  induction l with
  | nil => simp [getAL]
  | cons hd tl ih =>
    obtain ⟨k', v'⟩ := hd
    by_cases h : k' = k
    · simp [getAL, h]
    · simp only [getAL, if_neg h, List.map_cons, List.mem_cons, ih]
      constructor
      · intro hn hmem
        rcases hmem with h1 | h2
        · exact h h1.symm
        · exact hn h2
      · intro hn hm
        exact hn (Or.inr hm)

theorem popAL_of_getAL_none {α : Type} (l : List (Nat × α)) (k : Nat)
    (h : getAL l k = none) : popAL l k = l := by
  induction l with
  | nil => rfl
  | cons hd tl ih =>
    obtain ⟨k', v'⟩ := hd
    by_cases hk : k' = k
    · simp [getAL, hk] at h
    · simp [getAL, hk] at h
      simp [popAL, hk, ih h]

theorem popAL_sublist {α : Type} (l : List (Nat × α)) (k : Nat) :
    (popAL l k).Sublist l := by
  induction l with
  | nil => simp [popAL]
  | cons hd tl ih =>
    obtain ⟨k', v'⟩ := hd
    by_cases hk : k' = k
    · simp [popAL, hk]
    · simpa [popAL, hk] using List.Sublist.cons₂ ((k', v')) ih

theorem getAL_popAL_self {α : Type} (l : List (Nat × α)) (k : Nat)
    (h : (l.map Prod.fst).Nodup) : getAL (popAL l k) k = none := by
  induction l with
  | nil => rfl
  | cons hd tl ih =>
    obtain ⟨k', v'⟩ := hd
    simp only [List.map_cons, List.nodup_cons] at h
    by_cases hk : k' = k
    · simp only [popAL, hk, if_pos rfl]
      exact (getAL_eq_none_iff tl k).2 (hk ▸ h.1)
    · simp [popAL, hk, getAL, ih h.2]

theorem mem_keys_saveAL {α : Type} (l : List (Nat × α)) (k k' : Nat) (v : α) :
    k' ∈ (saveAL l k v).map Prod.fst ↔ k' ∈ l.map Prod.fst ∨ k' = k := by
  induction l with
  | nil => simp [saveAL]
  | cons hd tl ih =>
    obtain ⟨k₀, v₀⟩ := hd
    by_cases hk : k₀ = k
    · subst hk
      simp [saveAL]
      tauto
    · simp [saveAL, hk, ih]
      tauto

theorem nodup_keys_saveAL {α : Type} (l : List (Nat × α)) (k : Nat) (v : α)
    (h : (l.map Prod.fst).Nodup) : ((saveAL l k v).map Prod.fst).Nodup := by
  induction l with
  | nil => simp [saveAL]
  | cons hd tl ih =>
    obtain ⟨k₀, v₀⟩ := hd
    simp only [List.map_cons, List.nodup_cons] at h
    by_cases hk : k₀ = k
    · subst hk
      simpa [saveAL] using h
    · simp only [saveAL, if_neg hk, List.map_cons, List.nodup_cons]
      refine ⟨?_, ih h.2⟩
      intro hmem
      rcases (mem_keys_saveAL tl k k₀ v).1 hmem with h1 | h1
      · exact h.1 h1
      · exact hk h1

theorem nodup_keys_popAL {α : Type} (l : List (Nat × α)) (k : Nat)
    (h : (l.map Prod.fst).Nodup) : ((popAL l k).map Prod.fst).Nodup :=
  h.sublist ((popAL_sublist l k).map Prod.fst)

theorem nodup_keys_foldl_connOps (ops : List ConnOp) (m : ConnManager)
    (h : (m.connections.map Prod.fst).Nodup) :
    (((ops.foldl ConnManager.apply m).connections.map Prod.fst)).Nodup := by
  induction ops generalizing m with
  | nil => exact h
  | cons op rest ih =>
    cases op with
    | connect b ws now =>
      exact ih _ (nodup_keys_saveAL _ _ _ h)
    | disconnect b =>
      exact ih _ (nodup_keys_popAL _ _ h)

/-- C7: after any sequence of connect/disconnect events from a fresh
registry the connections dict has pairwise-distinct bot keys (at most one
channel per bot); reconnecting the same bot replaces its entry, keeping the
count at 1 and making `get_connection` return the new channel; disconnect
removes the bot's entry (on any registry with distinct keys) and is a no-op
when the bot holds no entry. -/
theorem conn_registry_spec :
    (∀ ops : List ConnOp,
      ((runConnOps ops).connections.map Prod.fst).Nodup) ∧
    (∀ b ch1 ch2 n1 n2 : Nat,
      ((ConnManager.empty.connect b ch1 (n1 : Int)).connect b ch2
          (n2 : Int)).get_connection_count = 1 ∧
      ((ConnManager.empty.connect b ch1 (n1 : Int)).connect b ch2
          (n2 : Int)).get_connection b = some ch2) ∧
    (∀ (m : ConnManager) (b : Nat), m.is_connected b = false →
      getAL m.connection_info b = none → m.disconnect b = m) ∧
    (∀ (m : ConnManager) (b : Nat), (m.connections.map Prod.fst).Nodup →
      (m.disconnect b).get_connection b = none) := by
  refine ⟨?_, ?_, ?_, ?_⟩
  · intro ops
    exact nodup_keys_foldl_connOps ops ConnManager.empty (by simp [ConnManager.empty])
  · intro b ch1 ch2 n1 n2
    constructor
    · simp [ConnManager.empty, ConnManager.connect, ConnManager.get_connection_count,
        saveAL]
    · simp [ConnManager.empty, ConnManager.connect, ConnManager.get_connection,
        saveAL, getAL]
  · intro m b hc hi
    have hc' : getAL m.connections b = none := by
      simpa [ConnManager.is_connected] using hc
    cases m with
    | mk conns info =>
      simp only [ConnManager.disconnect]
      rw [popAL_of_getAL_none _ _ hc', popAL_of_getAL_none _ _ hi]
  · intro m b h
    exact getAL_popAL_self _ _ h

/-- C7 witness: replacement of channel 21 by 22 for bot 5 keeps one entry
returning 22; disconnecting bot 9 (absent) from that registry is a no-op,
and disconnecting bot 5 removes its entry. -/
theorem conn_registry_spec_witness :
    ((ConnManager.empty.connect 5 21 0).connect 5 22 1).get_connection_count = 1 ∧
    ((ConnManager.empty.connect 5 21 0).connect 5 22 1).get_connection 5 = some 22 ∧
    ((ConnManager.empty.connect 5 21 0).connect 5 22 1).disconnect 9 =
      (ConnManager.empty.connect 5 21 0).connect 5 22 1 ∧
    (((ConnManager.empty.connect 5 21 0).connect 5 22 1).disconnect 5).get_connection 5 =
      none := by
  refine ⟨(conn_registry_spec.2.1 5 21 22 0 1).1,
    (conn_registry_spec.2.1 5 21 22 0 1).2,
    conn_registry_spec.2.2.1 _ 9 (by decide) (by decide),
    conn_registry_spec.2.2.2 _ 5 (by decide)⟩

/-! ## C9 — TaskService.handle_timed_out_tasks -/

theorem status_of_timed_out (t : Task) (now : Int)
    (h : t.is_timed_out now = true) : t.status = .in_progress := by
  by_contra hc
  simp [Task.is_timed_out, hc] at h

theorem handleStep_eq_ok (now : Int) (st : SweepState) (t : Task) :
    handleStep now st t =
      .ok (if t.is_timed_out now then
        ⟨st.count + 1, saveAL st.tasks t.id (failSnapshot t now),
         releaseBot st.bots t.bot_id now⟩
      else st) := by
  by_cases h : t.is_timed_out now = true
  · have hst := status_of_timed_out t now h
    simp [handleStep, h, Task.fail, hst, failSnapshot]
  · simp [handleStep, h]

theorem handleLoop_eq_total (now : Int) (cands : List Task) (st : SweepState) :
    handleLoop now st cands = .ok (handleTotal now st cands) := by
  induction cands generalizing st with
  | nil => rfl
  | cons t rest ih =>
    rw [handleLoop, handleStep_eq_ok, handleTotal]
    by_cases h : t.is_timed_out now = true
    · simp only [h, if_true]
      exact ih _
    · simp only [eq_false_of_ne_true h, if_false]
      exact ih _

theorem handleTotal_count (now : Int) (cands : List Task) (st : SweepState) :
    (handleTotal now st cands).count =
      st.count + (cands.filter (fun t => t.is_timed_out now)).length := by
  induction cands generalizing st with
  | nil => simp [handleTotal]
  | cons t rest ih =>
    rw [handleTotal]
    by_cases h : t.is_timed_out now = true
    · simp only [h, if_true, List.filter_cons, ih]
      simp [h]
      omega
    · simp only [eq_false_of_ne_true h, if_false, List.filter_cons, ih]
      simp [h]

theorem handleTotal_tasks (now : Int) (cands : List Task) (st : SweepState) :
    (handleTotal now st cands).tasks =
      (cands.filter (fun t => t.is_timed_out now)).foldl
        (fun acc t => saveAL acc t.id (failSnapshot t now)) st.tasks := by
  induction cands generalizing st with
  | nil => simp [handleTotal]
  | cons t rest ih =>
    rw [handleTotal]
    by_cases h : t.is_timed_out now = true
    · simp only [h, if_true, List.filter_cons, ih]
      simp [h]
    · simp only [eq_false_of_ne_true h, if_false, List.filter_cons, ih]
      simp [h]

/-- C9: `handle_timed_out_tasks` decides and builds everything from the
candidate snapshots alone — the run equals the total fold `handleTotal`,
whose failed count is the number of snapshot-timed-out candidates and whose
task writes are derived purely from the candidates (the task store is never
read, only used as the save base). The loop body has no per-task error
recovery (`handleLoop` propagates any `Task.fail` error, aborting the rest),
but the `is_timed_out` guard makes the failing branch unreachable, so every
pass returns `.ok`. The error result it attaches carries only "error" and
"timeout_seconds" — no `reason="timeout"` key. -/
theorem handle_timed_out_spec (cands : List Task) (ts : TaskStore)
    (bs : BotStore) (now : Int) :
    handleTimedOutTasks cands ts bs now = .ok (handleTotal now ⟨0, ts, bs⟩ cands) ∧
    (handleTotal now ⟨0, ts, bs⟩ cands).count =
      (cands.filter (fun t => t.is_timed_out now)).length ∧
    (handleTotal now ⟨0, ts, bs⟩ cands).tasks =
      (cands.filter (fun t => t.is_timed_out now)).foldl
        (fun acc t => saveAL acc t.id (failSnapshot t now)) ts ∧
    (∀ n : Nat, lookupR "reason" (handleTimeoutError n) = none ∧
      lookupR "error" (handleTimeoutError n) = some (.s "Task exceeded timeout")) := by
  refine ⟨handleLoop_eq_total now cands _, ?_, handleTotal_tasks now cands _, ?_⟩
  · simpa using handleTotal_count now cands ⟨0, ts, bs⟩
  · intro n
    constructor <;> simp [handleTimeoutError, lookupR]

/-! ## C2 — TimeoutWorker.process_timeouts -/

/-- C2 counterexample: sweeping a single in-progress, timed-out task stores
a failure result whose "message" value is
"Task exceeded timeout of 300 seconds", not the claimed form
"300s exceeded". -/
theorem sweep_message_counterexample :
    (processTimeouts [tInProgress] [(1, tInProgress)] [] 1000).tasks =
      [(1, { tInProgress with
        status := .failed
        result := some (workerTimeoutError 300)
        completed_at := some 1000
        updated_at := 1000 })] ∧
    lookupR "message" (workerTimeoutError 300) =
      some (.s "Task exceeded timeout of 300 seconds") ∧
    RVal.s "Task exceeded timeout of 300 seconds" ≠ RVal.s "300s exceeded" := by
  refine ⟨rfl, rfl, by decide⟩

/-- C2 (amended): for every candidate task examined in one sweep pass —
given that the re-fetched state of the candidate is either terminal or
agrees with the snapshot on the timed-out verdict, which every
transition-reachable store satisfies — the sweeper skips the candidate if
the re-fetched state is absent or terminal or not timed out, and otherwise
fails the re-fetched task with result `reason="timeout"`,
`message="Task exceeded timeout of <timeout_seconds> seconds"` and
`timeout_seconds`, saving it, releasing its busy bot, and counting it. -/
theorem sweep_candidate_spec (now : Int) (st : SweepState) (t : Task) :
    (getAL st.tasks t.id = none → sweepStep now st t = st) ∧
    (∀ cur, getAL st.tasks t.id = some cur →
      (cur.is_terminal = true ∨ t.is_timed_out now = cur.is_timed_out now) →
      (cur.is_terminal = true → sweepStep now st t = st) ∧
      (cur.is_timed_out now = false → sweepStep now st t = st) ∧
      (cur.is_terminal = false → cur.is_timed_out now = true →
        sweepStep now st t =
          ⟨st.count + 1,
           saveAL st.tasks cur.id { cur with
             status := .failed
             result := some (workerTimeoutError cur.timeout_seconds)
             completed_at := some now
             updated_at := now },
           releaseBot st.bots cur.bot_id now⟩)) := by
  constructor
  · intro h
    by_cases ht : t.is_timed_out now = true
    · simp [sweepStep, ht, h]
    · simp [sweepStep, eq_false_of_ne_true ht]
  · intro cur hcur hco
    refine ⟨?_, ?_, ?_⟩
    · intro hterm
      by_cases ht : t.is_timed_out now = true
      · simp [sweepStep, ht, hcur, hterm]
      · simp [sweepStep, eq_false_of_ne_true ht]
    · intro hfalse
      by_cases ht : t.is_timed_out now = true
      · rcases hco with hterm | heq
        · simp [sweepStep, ht, hcur, hterm]
        · rw [hfalse] at heq
          rw [heq] at ht
          cases ht
      · simp [sweepStep, eq_false_of_ne_true ht]
    · intro hterm htrue
      have hst : cur.status = .in_progress := status_of_timed_out cur now htrue
      rcases hco with h1 | heq
      · rw [h1] at hterm
        cases hterm
      · have ht : t.is_timed_out now = true := heq.trans htrue
        simp [sweepStep, ht, hcur, hterm, Task.fail, hst]

/-- C2 witness: the concrete timed-out in-progress task, re-fetched
unchanged from the store, is failed with the timeout result and counted. -/
theorem sweep_candidate_spec_witness :
    sweepStep 1000 ⟨0, [(1, tInProgress)], []⟩ tInProgress =
      ⟨1, [(1, { tInProgress with
        status := .failed
        result := some (workerTimeoutError 300)
        completed_at := some 1000
        updated_at := 1000 })], []⟩ := by
  exact ((sweep_candidate_spec 1000 ⟨0, [(1, tInProgress)], []⟩ tInProgress).2
    tInProgress rfl (Or.inr rfl)).2.2 (by decide) (by decide)

/-! ## C10 — whitespace-only bot names -/

theorem pyStrip_eq_empty_iff (s : String) :
    pyStrip s = "" ↔ ∀ c ∈ s.data, isPyWs c = true := by
  have hmk : ∀ l : List Char, (⟨l⟩ : String) = "" ↔ l = [] := by
    intro l
    constructor
    · intro h
      exact congrArg String.data h
    · intro h
      rw [h]
  rw [pyStrip, hmk, List.reverse_eq_nil_iff, List.dropWhile_eq_nil_iff]
  constructor
  · intro h c hc
    by_cases hdrop : c ∈ (s.data.dropWhile isPyWs)
    · exact h c (List.mem_reverse.2 hdrop)
    · have hsplit := List.takeWhile_append_dropWhile (p := isPyWs) (l := s.data)
      rw [← hsplit] at hc
      rcases List.mem_append.1 hc with htk | hdk
      · exact List.mem_takeWhile_imp htk
      · exact absurd hdk hdrop
  · intro h c hc
    have : c ∈ s.data := by
      have hsub : (s.data.dropWhile isPyWs).Sublist s.data :=
        List.dropWhile_sublist _
      exact hsub.mem (List.mem_reverse.1 hc)
    exact h c this

theorem string_ne_empty_of_length (s : String) (h : 1 ≤ s.length) : s ≠ "" := by
  intro hk
  rw [hk] at h
  simp at h

/-- C10: constructing a `Bot` rejects a name that is non-empty (hence inside
the 1–255 length bound) but consists only of whitespace, raising
`ValidationError("name", "Bot name cannot be empty")` — and `register_bot`
surfaces the same error; a name within the bound that contains any
non-whitespace character passes validation unchanged, and with a non-empty
capability list the bot is constructed with exactly that name. -/
theorem bot_name_validation (name : String) (caps : List String) (md : RDict)
    (id : Nat) (now : Int) :
    (name ≠ "" → (∀ c ∈ name.data, isPyWs c = true) → name.length ≤ 255 →
      mkBot id name caps md now =
        .error (.validation "name" "Bot name cannot be empty") ∧
      ∀ bs : BotStore, registerBot bs id name caps md now =
        .error (.validation "name" "Bot name cannot be empty")) ∧
    (1 ≤ name.length → name.length ≤ 255 →
      (∃ c ∈ name.data, isPyWs c = false) →
      validateBotName name = .ok name) ∧
    (1 ≤ name.length → name.length ≤ 255 →
      (∃ c ∈ name.data, isPyWs c = false) → 1 ≤ caps.length →
      mkBot id name caps md now = .ok
        { id := id
          name := name
          capabilities := caps
          metadata := md
          created_at := now
          updated_at := now }) := by
  have hval : ∀ h1 : 1 ≤ name.length, name.length ≤ 255 →
      (∃ c ∈ name.data, isPyWs c = false) → validateBotName name = .ok name := by
    intro h1 h2 hex
    have hne : name ≠ "" := string_ne_empty_of_length name h1
    have hstrip : pyStrip name ≠ "" := by
      intro hk
      obtain ⟨c, hc, hcw⟩ := hex
      have := (pyStrip_eq_empty_iff name).1 hk c hc
      rw [hcw] at this
      cases this
    simp [validateBotName, hne, hstrip]
    omega
  refine ⟨?_, hval, ?_⟩
  · intro hne hws h255
    have h1 : 1 ≤ name.length := by
      by_contra hc
      push_neg at hc
      interval_cases h : name.length
      · exact hne (by
          cases name with
          | mk l =>
            cases l with
            | nil => rfl
            | cons a as => simp [String.length] at h)
    have hstrip : pyStrip name = "" := (pyStrip_eq_empty_iff name).2 hws
    have hv : validateBotName name =
        .error (.validation "name" "Bot name cannot be empty") := by
      simp [validateBotName, hstrip]
      omega
    constructor
    · rw [mkBot, hv]
      rfl
    · intro bs
      rw [registerBot, mkBot, hv]
      rfl
  · intro h1 h2 hex hcaps
    have hv := hval h1 h2 hex
    have hc : validateBotCapabilities caps = .ok caps := by
      have : caps ≠ [] := by
        intro hk
        rw [hk] at hcaps
        simp at hcaps
      simp [validateBotCapabilities, this]
    rw [mkBot, hv, hc]
    rfl

/-- C10 witness: the three-space name (length 3, inside the bound) is
rejected with `ValidationError("name", ...)` by construction and by
registration, while "w3" is accepted unmodified. -/
theorem bot_name_validation_witness :
    mkBot 3 "   " ["build"] [] 0 =
      .error (.validation "name" "Bot name cannot be empty") ∧
    registerBot [] 3 "   " ["build"] [] 0 =
      .error (.validation "name" "Bot name cannot be empty") ∧
    mkBot 3 "w3" ["build"] [] 0 = .ok
      { id := 3
        name := "w3"
        capabilities := ["build"]
        metadata := []
        created_at := 0
        updated_at := 0 } := by
  have h := bot_name_validation "   " ["build"] [] 3 0
  have h2 := bot_name_validation "w3" ["build"] [] 3 0
  refine ⟨(h.1 (by decide) (by decide) (by decide)).1,
    (h.1 (by decide) (by decide) (by decide)).2 [],
    h2.2.2 (by decide) (by decide) ⟨'w', by decide⟩ (by decide)⟩

end Clawbot

